import Mathlib

/-!
Shallow embedding of `ipyparallel/engine/kernel.py` (class `IPythonParallelKernel`).

The Python module extends an interactive kernel with apply-request execution,
per-request metadata, and abort/clear control handlers.  External collaborators
(the interactive shell, the transport session, the wire codec) are modelled as
parameters or, where the spec fixes their interface, as definitions whose doc
comments say so.  The shared namespace (a Python dict) is modelled as an
association list observed only through lookup.
-/

namespace IPyParallel

/-- Values stored in the shared namespace, kept abstract but concrete enough to
evaluate: the embedding never inspects them beyond equality. -/
inductive Val where
  | none
  | num (n : Nat)
  | str (s : String)
  | func (tag : Nat)
  deriving DecidableEq, Repr

/-- The Shared Namespace (`shell.user_ns`): a Python dict from names to values,
modelled as an association list observed through `nsLookup`. -/
def NS : Type := List (String × Val)

instance : DecidableEq NS := by
  unfold NS
  infer_instance

instance : Repr NS := by
  unfold NS
  infer_instance

/-- Dict lookup (`working.get(key)` / `key in working`): first binding wins. -/
def nsLookup : NS → String → Option Val
  | [], _ => Option.none
  | (k, v) :: rest, x => if k = x then some v else nsLookup rest x

/-- Dict membership test (`key in working`), used by `pop`. -/
def nsContains (ns : NS) (x : String) : Bool :=
  (nsLookup ns x).isSome

/-- Dict key removal (`working.pop(key)` succeeding): removes every binding of
the key, so that afterwards the key is absent. -/
def nsErase : NS → String → NS
  | [], _ => []
  | (k, v) :: rest, x => if k = x then nsErase rest x else (k, v) :: nsErase rest x

/-- Dict assignment (`working[key] = v`, one step of `working.update(ns)`):
the new binding shadows any older one. -/
def nsInsert (ns : NS) (k : String) (v : Val) : NS :=
  (k, v) :: ns

/-- A Python exception, reduced to what the handler reads: the class name
(`type(e).__name__`) and the string value (`safe_unicode(e)`). -/
structure PyErr where
  ename : String
  evalue : String
  deriving DecidableEq, Repr

/-- The kernel attributes the handlers read.  `ident` is the opaque identity
token (`self.ident`), `engine_id` the `Integer` trait of the class. -/
structure Kernel where
  ident : String
  engine_id : Int
  /-- Modelled from the spec: `self.int_id`, read on the apply error path, is
  not defined in the source tree (it is set on the kernel by the engine
  bootstrap code of this repository); per the spec the worker exposes a small
  integer worker index used in error payloads, so `int_id` is that number. -/
  int_id : Int
  deriving DecidableEq, Repr

/-- Worker-info sub-record (`engine_info` dicts built by `finish_metadata`
and by the `do_apply` error path; only the latter carries `method`). -/
structure ErrorInfo where
  engine_uuid : String
  engine_id : Int
  method : Option String
  deriving DecidableEq, Repr

/-- Reply content dict: a field is `some` exactly when the Python dict has
the corresponding key. -/
structure Reply where
  status : String
  ename : Option String
  evalue : Option String
  traceback : Option (List String)
  engine_info : Option ErrorInfo
  deriving DecidableEq, Repr

/-- The `dict(status='ok')` reply content (also `{'status': 'ok'}`). -/
def okReply : Reply :=
  { status := "ok", ename := Option.none, evalue := Option.none,
    traceback := Option.none, engine_info := Option.none }

/-- Metadata record built by `init_metadata` / `finish_metadata`.  The
`started` timestamp is an abstract clock value. -/
structure Metadata where
  started : Nat
  dependencies_met : Bool
  engine : String
  status : Option String
  engine_info : Option ErrorInfo
  deriving DecidableEq, Repr

/-- Where the shell recorded the formatted traceback after `showtraceback()`:
ipykernel 4.4 stores `_last_traceback` (possibly `None`), ipykernel <= 4.3
stores `_reply_content` with an optional `traceback` key, or neither exists. -/
inductive TbSource where
  | lastTraceback (tb : Option (List String))
  | replyContent (tb : Option (List String))
  | missing
  deriving DecidableEq, Repr

/-- Traceback the `do_apply` error handler ends up with (lines 172-185 of the
source): starts as `[]`, then `_last_traceback or []`, or the `_reply_content`
traceback when present, or stays `[]` with a warning. -/
def tracebackOf : TbSource → List String
  | TbSource.lastTraceback tb => tb.getD []
  | TbSource.replyContent (some tb) => tb
  | TbSource.replyContent Option.none => []
  | TbSource.missing => []

/-- Observable actions of a handler, in program order. -/
inductive Event where
  | logError
  | publishInput (code : String) (count : Nat)
  | sendReply (channel : String) (msgType : String) (content : Reply) (metadata : Option Metadata)
  | iopubSend (msgType : String) (topic : String)
  | abortQueues
  deriving DecidableEq, Repr

/-- The `_topic` method: `"engine.%s" % self.engine_id` dotted with the topic. -/
def topicFor (k : Kernel) (t : String) : String :=
  "engine." ++ toString k.engine_id ++ "." ++ t

/-- The `str(msg_id).replace("-", "")` step of the prefix derivation. -/
def remDashes (s : String) : String :=
  ⟨s.data.filter (fun c => c != '-')⟩

/-- Temporary-name token built in `do_apply`:
`"_" + str(msg_id).replace("-","") + "_"`. -/
def applyPfx (msg_id : String) : String :=
  "_" ++ remDashes msg_id ++ "_"

/-- Token as the spec describes it: derived from the request identifier by
stripping all non-alphanumeric characters, wrapped the same way.  Stated for
comparison with `applyPfx`, which is what the code computes. -/
def specPfx (msg_id : String) : String :=
  "_" ++ (⟨msg_id.data.filter Char.isAlphanum⟩ : String) ++ "_"

/-- The four temporary names, in the insertion order of the dict `ns` built in
`do_apply` (`fname`, `argname`, `kwargname`, `resultname`). -/
def tempNames (pfx : String) : List String :=
  [pfx ++ "f", pfx ++ "args", pfx ++ "kwargs", pfx ++ "result"]

/-- The `working.update(ns)` step: bind the callable, args, kwargs and the
`None` result placeholder under the four temporary names. -/
def bindTemps (working : NS) (pfx : String) (f args kwargs : Val) : NS :=
  nsInsert (nsInsert (nsInsert (nsInsert working (pfx ++ "f") f)
    (pfx ++ "args") args) (pfx ++ "kwargs") kwargs) (pfx ++ "result") Val.none

/-- The `finally: for key in ns: working.pop(key)` loop.  `pop` raises
`KeyError` when the key is absent, which aborts the loop and propagates. -/
def popLoop : NS → List String → NS × Option PyErr
  | ns, [] => (ns, Option.none)
  | ns, k :: ks =>
    if nsContains ns k then popLoop (nsErase ns k) ks
    else (ns, some { ename := "KeyError", evalue := k })

/-- Error reply content assembled by the `except BaseException` handler of
`do_apply`: traceback from the shell, exception name and value, worker info
with the numeric `int_id` and `method='apply'`. -/
def applyErrorReply (k : Kernel) (tbS : TbSource) (e : PyErr) : Reply :=
  { status := "error", ename := some e.ename, evalue := some e.evalue,
    traceback := some (tracebackOf tbS),
    engine_info := some { engine_uuid := k.ident, engine_id := k.int_id,
                          method := some "apply" } }

/-- Result of `do_apply`: the namespace afterwards, the reply content, the
serialized result buffers, and the IOPub messages it published. -/
structure ApplyOutcome where
  ns : NS
  reply : Reply
  result_buf : List Nat
  iopub : List Event
  deriving DecidableEq, Repr

/-- Error outcome of `do_apply`: besides the reply, `send_response` publishes
one `error` message on the `engine.<id>.error` topic, and `result_buf = []`. -/
def applyErrorOutcome (k : Kernel) (tbS : TbSource) (ns : NS) (e : PyErr) : ApplyOutcome :=
  { ns := ns, reply := applyErrorReply k tbS e, result_buf := [],
    iopub := [Event.iopubSend "error" (topicFor k "error")] }

/-- The `do_apply` method.  External behavior enters as parameters:
`unpack` is the outcome of `unpack_apply_message(bufs, working, copy=False)`;
`callEffect` maps the namespace after binding the temporaries to the namespace
after `exec(code, ...)` together with the exception it raised, if any (the
mutations made before raising persist, as in Python); `serialize` is
`serialize_object` on the result value.  An exception raised by the `pop` loop
in the `finally` block supersedes the one from `exec`, and every exception is
caught by the outer `except BaseException` handler. -/
def do_apply (k : Kernel) (tbS : TbSource) (working : NS) (msg_id : String)
    (unpack : Except PyErr (Val × Val × Val))
    (callEffect : NS → NS × Option PyErr)
    (serialize : Val → Except PyErr (List Nat)) : ApplyOutcome :=
  let pfx := applyPfx msg_id
  match unpack with
  | Except.error e => applyErrorOutcome k tbS working e
  | Except.ok (f, args, kwargs) =>
    let working1 := bindTemps working pfx f args kwargs
    let stepped := callEffect working1
    let working2 := stepped.1
    let result := (nsLookup working2 (pfx ++ "result")).getD Val.none
    let popped := popLoop working2 (tempNames pfx)
    let working3 := popped.1
    match popped.2 with
    | some pe => applyErrorOutcome k tbS working3 pe
    | Option.none =>
      match stepped.2 with
      | some e => applyErrorOutcome k tbS working3 e
      | Option.none =>
        match serialize result with
        | Except.error e => applyErrorOutcome k tbS working3 e
        | Except.ok bufs =>
          { ns := working3, reply := okReply, result_buf := bufs, iopub := [] }

/-- The `init_metadata` method; `started` is the `utcnow()` clock value. -/
def init_metadata (k : Kernel) (t : Nat) : Metadata :=
  { started := t, dependencies_met := true, engine := k.ident,
    status := Option.none, engine_info := Option.none }

/-- The `finish_metadata` method.  Reading `reply_content['ename']` raises
`KeyError` when the key is absent, hence the `Except`. -/
def finish_metadata (k : Kernel) (md : Metadata) (reply : Reply) : Except PyErr Metadata :=
  let md1 := { md with status := some reply.status }
  if reply.status = "error" then
    match reply.ename with
    | Option.none => Except.error { ename := "KeyError", evalue := "ename" }
    | some en =>
      let md2 := if en = "UnmetDependency" then { md1 with dependencies_met := false } else md1
      let einfo : ErrorInfo :=
        { engine_uuid := k.ident, engine_id := k.engine_id, method := Option.none }
      Except.ok { md2 with engine_info := some einfo }
  else
    Except.ok md1

/-- Fields of an inbound apply message the handler extracts; extraction of a
missing field raises, which the handler turns into log-and-return. -/
structure ApplyMsg where
  has_content : Bool
  has_buffers : Bool
  msg_id : Option String
  deriving DecidableEq, Repr

/-- The `apply_request` handler: parse (log and drop on failure), init
metadata, run `do_apply`, finish metadata, send exactly one `apply_reply`.
An exception escaping `finish_metadata` prevents the reply from being sent. -/
def apply_request (k : Kernel) (tbS : TbSource) (msg : ApplyMsg) (t : Nat)
    (working : NS) (unpack : Except PyErr (Val × Val × Val))
    (callEffect : NS → NS × Option PyErr)
    (serialize : Val → Except PyErr (List Nat)) : NS × List Event :=
  match msg.has_content, msg.has_buffers, msg.msg_id with
  | true, true, some msg_id =>
    let md := init_metadata k t
    let r := do_apply k tbS working msg_id unpack callEffect serialize
    match finish_metadata k md r.reply with
    | Except.ok md1 =>
      (r.ns, r.iopub ++ [Event.sendReply "shell" "apply_reply" r.reply (some md1)])
    | Except.error _ => (r.ns, r.iopub)
  | _, _, _ => (working, [Event.logError])

/-- Content fields of an inbound execute message; `code` and `silent` are
required (their extraction raises when absent), the rest use `.get`. -/
structure ExecContent where
  code : Option String
  silent : Option Bool
  store_history : Option Bool
  allow_stdin : Option Bool
  stop_on_error : Option Bool
  deriving DecidableEq, Repr

/-- The `execute_request` handler.  `n` is the `execution_count` before the
request, `dr` the reply content the external `do_execute` returns.  The
`_abort_queues` call happens after `session.send`, and only when the request
was not silent, the reply status is `error`, and `stop_on_error` (default
true) is set. -/
def execute_request (k : Kernel) (content : Option ExecContent) (t : Nat)
    (n : Nat) (dr : Reply) : List Event :=
  match content with
  | Option.none => [Event.logError]
  | some c =>
    match c.code, c.silent with
    | some code, some silent =>
      let stop_on_error := c.stop_on_error.getD true
      let md := init_metadata k t
      let inputEvents := if silent then [] else [Event.publishInput code (n + 1)]
      match finish_metadata k md dr with
      | Except.error _ => inputEvents
      | Except.ok md1 =>
        let events := inputEvents ++ [Event.sendReply "shell" "execute_reply" dr (some md1)]
        if !silent && (dr.status == "error") && stop_on_error then
          events ++ [Event.abortQueues]
        else
          events
    | _, _ => [Event.logError]

/-- Abort-related kernel state: `aborted` is the `self.aborted` set (insertion
order kept, membership is what matters), `queued` the identifiers of the work
currently queued. -/
structure AbortState where
  aborted : List String
  queued : List String
  deriving DecidableEq, Repr

/-- One `self.aborted.add(str(mid))` step (set semantics). -/
def addAborted (st : AbortState) (m : String) : AbortState :=
  if m ∈ st.aborted then st else { st with aborted := st.aborted ++ [m] }

/-- Modelled from the spec: `self._abort_queues()` is inherited from the
kernel base class and is not in this repository's source tree; per the spec it
marks everything currently queued as aborted. -/
def abortQueuesFn (st : AbortState) : AbortState :=
  st.queued.foldl addAborted st

/-- The `msg_ids` field as `parent['content'].get('msg_ids', None)` yields it:
absent (`None`), a single string, or a list of strings. -/
inductive MsgIdsField where
  | absent
  | str (s : String)
  | list (xs : List String)
  deriving DecidableEq, Repr

/-- Python truthiness of the `msg_ids` value (`if not msg_ids:`). -/
def pyTruthy : MsgIdsField → Bool
  | MsgIdsField.absent => false
  | MsgIdsField.str s => s ≠ ""
  | MsgIdsField.list xs => xs ≠ []

/-- The `abort_request` handler.  A bare string is first wrapped into a
one-element list; a falsy value triggers `_abort_queues`; then `for mid in
msg_ids` adds each identifier — iterating `None` raises `TypeError`, in which
case no reply is sent.  Otherwise the handler replies `{status: ok}`. -/
def abort_request (st : AbortState) (msg_ids0 : MsgIdsField) :
    Except PyErr (AbortState × Reply) :=
  let msg_ids := match msg_ids0 with
    | MsgIdsField.str s => MsgIdsField.list [s]
    | m => m
  let st1 := if pyTruthy msg_ids then st else abortQueuesFn st
  match msg_ids with
  | MsgIdsField.absent =>
    Except.error { ename := "TypeError", evalue := "NoneType is not iterable" }
  | MsgIdsField.str s => Except.ok (addAborted st1 s, okReply)
  | MsgIdsField.list xs => Except.ok (xs.foldl addAborted st1, okReply)

/-- Modelled from the spec: `self.shell.reset(False)` belongs to the external
interactive shell; per the spec the clear operation unconditionally empties
the Shared Namespace. -/
def shellReset (_ns : NS) : NS := []

/-- The `clear_request` handler: reset the namespace, reply `{status: ok}`. -/
def clear_request (ns : NS) : NS × Reply :=
  (shellReset ns, okReply)

/-- Metadata record `finish_metadata` produces for an error reply whose
exception class name is `en`, starting from `init_metadata` at time `t`. -/
def mdErr (k : Kernel) (t : Nat) (en : String) : Metadata :=
  { started := t,
    dependencies_met := if en = "UnmetDependency" then false else true,
    engine := k.ident,
    status := some "error",
    engine_info := some { engine_uuid := k.ident, engine_id := k.engine_id,
                          method := Option.none } }

/-- Metadata record `finish_metadata` produces for an ok reply, starting from
`init_metadata` at time `t`. -/
def mdOk (k : Kernel) (t : Nat) : Metadata :=
  { started := t, dependencies_met := true, engine := k.ident,
    status := some "ok", engine_info := Option.none }

/-- Test for an `execute_reply` send event. -/
def isExecReplySendB : Event → Bool
  | Event.sendReply _ "execute_reply" _ _ => true
  | _ => false

/-- Whether some bulk abort occurs strictly before some `execute_reply` send
in a trace. -/
def abortBeforeSendB : List Event → Bool
  | [] => false
  | Event.abortQueues :: rest => rest.any isExecReplySendB || abortBeforeSendB rest
  | _ :: rest => abortBeforeSendB rest

/-! ### Lemmas about the namespace operations -/

lemma nsLookup_nsInsert (ns : NS) (k : String) (v : Val) (x : String) :
    nsLookup (nsInsert ns k v) x = if k = x then some v else nsLookup ns x := by
  simp [nsInsert, nsLookup]

lemma nsLookup_nsErase (ns : NS) (k x : String) :
    nsLookup (nsErase ns k) x = if x = k then Option.none else nsLookup ns x := by
  induction ns with
  | nil => simp [nsErase, nsLookup]
  | cons p rest ih =>
    obtain ⟨k', v⟩ := p
    by_cases h1 : k' = k <;> by_cases h2 : k' = x <;> by_cases h3 : x = k <;>
      simp_all [nsErase, nsLookup]

lemma nsContains_nsErase (ns : NS) (k x : String) :
    nsContains (nsErase ns k) x = if x = k then false else nsContains ns x := by
  by_cases h : x = k <;> simp [nsContains, nsLookup_nsErase, h]

lemma nsLookup_foldl_nsErase (ks : List String) :
    ∀ (ns : NS) (x : String),
      nsLookup (ks.foldl nsErase ns) x = if x ∈ ks then Option.none else nsLookup ns x := by
  induction ks with
  | nil => intro ns x; simp
  | cons k ks ih =>
    intro ns x
    by_cases hxk : x = k
    · simp [List.foldl_cons, ih, hxk, nsLookup_nsErase]
    · by_cases hxks : x ∈ ks <;> simp [List.foldl_cons, ih, hxk, hxks, nsLookup_nsErase]

lemma popLoop_eq (ks : List String) :
    ∀ ns : NS, ks.Nodup → (∀ x ∈ ks, nsContains ns x = true) →
      popLoop ns ks = (ks.foldl nsErase ns, Option.none) := by
  induction ks with
  | nil => intro ns _ _; simp [popLoop]
  | cons k ks ih =>
    intro ns hnd hpres
    have hk : nsContains ns k = true := hpres k (by simp)
    rw [popLoop, if_pos hk, List.foldl_cons]
    refine ih (nsErase ns k) (List.nodup_cons.mp hnd).2 ?_
    intro x hx
    have hxk : x ≠ k := by
      rintro rfl
      exact (List.nodup_cons.mp hnd).1 hx
    rw [nsContains_nsErase, if_neg hxk]
    exact hpres x (List.mem_cons_of_mem _ hx)

/-! ### Lemmas about strings and the temporary names -/

lemma listCancelLeft (p : List Char) :
    ∀ (a b : List Char), p ++ a = p ++ b → a = b := by
  induction p with
  | nil => intro a b h; simpa using h
  | cons c p ih => intro a b h; exact ih a b (by simpa using h)

lemma listCancelRight (a b s : List Char) (h : a ++ s = b ++ s) : a = b := by
  have hlen : a.length = b.length := by
    have := congrArg List.length h
    simp [List.length_append] at this
    omega
  exact (List.append_inj h hlen).1

lemma stringDataInj (a b : String) (h : a.data = b.data) : a = b :=
  congrArg String.mk h

lemma strCancelLeft (p a b : String) (h : p ++ a = p ++ b) : a = b := by
  apply stringDataInj
  have hd : p.data ++ a.data = p.data ++ b.data := congrArg String.data h
  exact listCancelLeft p.data a.data b.data hd

lemma pfxApp_ne (p : String) {a b : String} (h : a ≠ b) : p ++ a ≠ p ++ b :=
  fun he => h (strCancelLeft p a b he)

lemma tempNames_nodup (pfx : String) : (tempNames pfx).Nodup := by
  have h1 := pfxApp_ne pfx (show "f" ≠ "args" by decide)
  have h2 := pfxApp_ne pfx (show "f" ≠ "kwargs" by decide)
  have h3 := pfxApp_ne pfx (show "f" ≠ "result" by decide)
  have h4 := pfxApp_ne pfx (show "args" ≠ "kwargs" by decide)
  have h5 := pfxApp_ne pfx (show "args" ≠ "result" by decide)
  have h6 := pfxApp_ne pfx (show "kwargs" ≠ "result" by decide)
  simp [tempNames, List.nodup_cons, List.mem_cons]
  exact ⟨⟨h1, h2, h3⟩, ⟨h4, h5⟩, h6⟩

/-! ### Shape lemmas for `do_apply` and `finish_metadata` -/

lemma do_apply_err_eq (k : Kernel) (tbS : TbSource) (working : NS) (msg_id : String)
    (f a kw : Val) (eff : NS → NS × Option PyErr) (ser : Val → Except PyErr (List Nat))
    (ns2 : NS) (e : PyErr)
    (hcall : eff (bindTemps working (applyPfx msg_id) f a kw) = (ns2, some e))
    (hpres : ∀ x ∈ tempNames (applyPfx msg_id), nsContains ns2 x = true) :
    do_apply k tbS working msg_id (Except.ok (f, a, kw)) eff ser =
      applyErrorOutcome k tbS ((tempNames (applyPfx msg_id)).foldl nsErase ns2) e := by
  have hpop := popLoop_eq (tempNames (applyPfx msg_id)) ns2 (tempNames_nodup _) hpres
  simp [do_apply, hcall, hpop]

lemma do_apply_ok_eq (k : Kernel) (tbS : TbSource) (working : NS) (msg_id : String)
    (f a kw : Val) (eff : NS → NS × Option PyErr) (ser : Val → Except PyErr (List Nat))
    (ns2 : NS) (bufs : List Nat)
    (hcall : eff (bindTemps working (applyPfx msg_id) f a kw) = (ns2, Option.none))
    (hpres : ∀ x ∈ tempNames (applyPfx msg_id), nsContains ns2 x = true)
    (hser : ser ((nsLookup ns2 (applyPfx msg_id ++ "result")).getD Val.none) = Except.ok bufs) :
    do_apply k tbS working msg_id (Except.ok (f, a, kw)) eff ser =
      { ns := (tempNames (applyPfx msg_id)).foldl nsErase ns2, reply := okReply,
        result_buf := bufs, iopub := [] } := by
  have hpop := popLoop_eq (tempNames (applyPfx msg_id)) ns2 (tempNames_nodup _) hpres
  simp [do_apply, hcall, hpop, hser]

lemma finish_metadata_applyErrorReply (k : Kernel) (t : Nat) (tbS : TbSource) (e : PyErr) :
    finish_metadata k (init_metadata k t) (applyErrorReply k tbS e) =
      Except.ok (mdErr k t e.ename) := by
  by_cases h : e.ename = "UnmetDependency" <;>
    simp [finish_metadata, init_metadata, applyErrorReply, mdErr, h]

lemma finish_metadata_ok_status (k : Kernel) (t : Nat) (reply : Reply)
    (h : reply.status = "ok") :
    finish_metadata k (init_metadata k t) reply = Except.ok (mdOk k t) := by
  simp [finish_metadata, init_metadata, mdOk, h]

/-! ### Claims -/

/-- C1: after `do_apply` returns — whether the callable succeeded or raised —
none of the four temporary bindings is observable in the Shared Namespace, and
every non-temporary name is bound exactly as the callable's own execution left
it; moreover the binding step touched only the temporary names, and a failure
of argument unpacking leaves the namespace untouched.  Hypotheses: the
callable's execution left the four temporary names present (it may rebind but
not delete them), which is what the `finally` pop loop needs to complete. -/
theorem do_apply_namespace_frame
    (k : Kernel) (tbS : TbSource) (working : NS) (msg_id : String)
    (f a kw : Val) (eff : NS → NS × Option PyErr) (ser : Val → Except PyErr (List Nat))
    (ns2 : NS) (exc : Option PyErr)
    (hcall : eff (bindTemps working (applyPfx msg_id) f a kw) = (ns2, exc))
    (hpres : ∀ x ∈ tempNames (applyPfx msg_id), nsContains ns2 x = true) :
    (∀ nm ∈ tempNames (applyPfx msg_id),
       nsLookup (do_apply k tbS working msg_id (Except.ok (f, a, kw)) eff ser).ns nm
         = Option.none)
    ∧ (∀ x, x ∉ tempNames (applyPfx msg_id) →
        nsLookup (do_apply k tbS working msg_id (Except.ok (f, a, kw)) eff ser).ns x
          = nsLookup ns2 x
        ∧ nsLookup (bindTemps working (applyPfx msg_id) f a kw) x = nsLookup working x)
    ∧ (∀ e, (do_apply k tbS working msg_id (Except.error e) eff ser).ns = working) := by
  have hpop := popLoop_eq (tempNames (applyPfx msg_id)) ns2 (tempNames_nodup _) hpres
  have hns : (do_apply k tbS working msg_id (Except.ok (f, a, kw)) eff ser).ns
      = (tempNames (applyPfx msg_id)).foldl nsErase ns2 := by
    cases exc with
    | none =>
      cases hser : ser ((nsLookup ns2 (applyPfx msg_id ++ "result")).getD Val.none) with
      | error e => simp [do_apply, hcall, hpop, hser, applyErrorOutcome]
      | ok bufs => simp [do_apply, hcall, hpop, hser]
    | some e => simp [do_apply, hcall, hpop, applyErrorOutcome]
  refine ⟨?_, ?_, ?_⟩
  · intro nm hnm
    rw [hns, nsLookup_foldl_nsErase]
    simp [hnm]
  · intro x hx
    constructor
    · rw [hns, nsLookup_foldl_nsErase]
      simp [hx]
    · have h1 : applyPfx msg_id ++ "f" ≠ x := by
        rintro rfl; exact hx (by simp [tempNames])
      have h2 : applyPfx msg_id ++ "args" ≠ x := by
        rintro rfl; exact hx (by simp [tempNames])
      have h3 : applyPfx msg_id ++ "kwargs" ≠ x := by
        rintro rfl; exact hx (by simp [tempNames])
      have h4 : applyPfx msg_id ++ "result" ≠ x := by
        rintro rfl; exact hx (by simp [tempNames])
      simp [bindTemps, nsInsert, nsLookup, h1, h2, h3, h4]
  · intro e
    simp [do_apply, applyErrorOutcome]

/-- C1 witness: a concrete error-raising run with one non-temporary binding. -/
theorem do_apply_namespace_frame_witness :
    (∀ nm ∈ tempNames (applyPfx "abc-123"),
       nsLookup (do_apply ⟨"u", 0, 0⟩ (TbSource.lastTraceback (some ["tb"]))
           [("x", Val.num 1)] "abc-123"
           (Except.ok (Val.func 0, Val.str "a", Val.str "b"))
           (fun ns => (ns, some ⟨"ValueError", "bad"⟩))
           (fun _ => Except.ok [5])).ns nm = Option.none)
    ∧ (∀ x, x ∉ tempNames (applyPfx "abc-123") →
        nsLookup (do_apply ⟨"u", 0, 0⟩ (TbSource.lastTraceback (some ["tb"]))
            [("x", Val.num 1)] "abc-123"
            (Except.ok (Val.func 0, Val.str "a", Val.str "b"))
            (fun ns => (ns, some ⟨"ValueError", "bad"⟩))
            (fun _ => Except.ok [5])).ns x
          = nsLookup (bindTemps [("x", Val.num 1)] (applyPfx "abc-123")
              (Val.func 0) (Val.str "a") (Val.str "b")) x
        ∧ nsLookup (bindTemps [("x", Val.num 1)] (applyPfx "abc-123")
              (Val.func 0) (Val.str "a") (Val.str "b")) x
          = nsLookup [("x", Val.num 1)] x)
    ∧ (∀ e, (do_apply ⟨"u", 0, 0⟩ (TbSource.lastTraceback (some ["tb"]))
        [("x", Val.num 1)] "abc-123" (Except.error e)
        (fun ns => (ns, some ⟨"ValueError", "bad"⟩))
        (fun _ => Except.ok [5])).ns = [("x", Val.num 1)]) :=
  do_apply_namespace_frame ⟨"u", 0, 0⟩ (TbSource.lastTraceback (some ["tb"]))
    [("x", Val.num 1)] "abc-123" (Val.func 0) (Val.str "a") (Val.str "b")
    (fun ns => (ns, some ⟨"ValueError", "bad"⟩)) (fun _ => Except.ok [5])
    (bindTemps [("x", Val.num 1)] (applyPfx "abc-123")
      (Val.func 0) (Val.str "a") (Val.str "b"))
    (some ⟨"ValueError", "bad"⟩) rfl (by decide)

/-- C3: after `finish_metadata`, the metadata's dependencies-met flag is false
exactly when the reply status is `error` and its exception class name is
`UnmetDependency`; it stays true for ok replies and for errors of any other
class. -/
theorem finish_metadata_dependencies_met
    (k : Kernel) (t : Nat) (reply : Reply) (md : Metadata)
    (hfin : finish_metadata k (init_metadata k t) reply = Except.ok md) :
    md.dependencies_met = false ↔
      reply.status = "error" ∧ reply.ename = some "UnmetDependency" := by
  by_cases hs : reply.status = "error"
  · cases hen : reply.ename with
    | none => simp [finish_metadata, hs, hen] at hfin
    | some en =>
      by_cases hu : en = "UnmetDependency"
      · simp only [finish_metadata, hs, if_true, hen, hu, if_pos] at hfin
        have := (Except.ok.inj hfin).symm
        subst this
        simp [hs, hen, hu, init_metadata]
      · simp only [finish_metadata, hs, if_true, hen] at hfin
        rw [if_neg hu] at hfin
        have := (Except.ok.inj hfin).symm
        subst this
        simp [hs, hen, hu, init_metadata]
  · simp only [finish_metadata] at hfin
    rw [if_neg hs] at hfin
    have := (Except.ok.inj hfin).symm
    subst this
    simp [hs, init_metadata]

/-- C3 witness: an `UnmetDependency` error flips the flag to false. -/
theorem finish_metadata_dependencies_met_witness :
    ((Except.ok (mdErr ⟨"u", 0, 0⟩ 0 "UnmetDependency") :
        Except PyErr Metadata).isOk = true)
    ∧ ((mdErr ⟨"u", 0, 0⟩ 0 "UnmetDependency").dependencies_met = false ↔
        (applyErrorReply ⟨"u", 0, 0⟩ TbSource.missing ⟨"UnmetDependency", "x"⟩).status = "error"
        ∧ (applyErrorReply ⟨"u", 0, 0⟩ TbSource.missing ⟨"UnmetDependency", "x"⟩).ename
            = some "UnmetDependency") :=
  ⟨by decide,
   finish_metadata_dependencies_met ⟨"u", 0, 0⟩ 0
     (applyErrorReply ⟨"u", 0, 0⟩ TbSource.missing ⟨"UnmetDependency", "x"⟩)
     (mdErr ⟨"u", 0, 0⟩ 0 "UnmetDependency") rfl⟩

/-- C5 (code evaluated at the failing input): an `abort_request` whose
`msg_ids` field is absent performs the bulk abort but then raises `TypeError`
iterating `None`, so the `{status: ok}` reply is never sent — contradicting
the claim that abort always replies ok. -/
theorem abort_request_absent_raises :
    abort_request ⟨[], ["q1", "q2"]⟩ MsgIdsField.absent =
      Except.error ⟨"TypeError", "NoneType is not iterable"⟩ := rfl

/-- C9: `clear_request` is idempotent — after each of two consecutive
invocations the Shared Namespace is empty and the reply is `{status: ok}`. -/
theorem clear_request_idempotent (ns : NS) :
    (clear_request ns).1 = []
    ∧ (clear_request ns).2 = okReply
    ∧ (clear_request (clear_request ns).1).1 = []
    ∧ (clear_request (clear_request ns).1).2 = okReply := by
  simp [clear_request, shellReset]

/-- C10: a bare string `msg_ids` is normalized to a one-element list: exactly
that identifier is added to the aborted set (the string is not iterated
character by character), the queued set is untouched, no bulk abort happens
even for the empty string, and the reply is `{status: ok}`. -/
theorem abort_request_string_normalized (st : AbortState) (s : String) :
    abort_request st (MsgIdsField.str s) = Except.ok (addAborted st s, okReply) := by
  simp [abort_request, pyTruthy]

lemma finish_metadata_okReply (k : Kernel) (t : Nat) :
    finish_metadata k (init_metadata k t) okReply = Except.ok (mdOk k t) :=
  finish_metadata_ok_status k t okReply rfl

/-- C2: a raising apply execution yields exactly the two observable messages,
in order: one side-channel `error` notification on the `engine.<id>.error`
topic and one `apply_reply` whose content has status `error`, the exception's
class name as `ename`, its string value as `evalue`, and a non-empty traceback
(non-empty provided the shell's traceback facility recorded one); a succeeding
execution yields exactly one `apply_reply` and no side-channel notification. -/
theorem apply_request_error_reply_and_notification
    (k : Kernel) (tbS : TbSource) (working : NS) (msg_id : String) (t : Nat)
    (f a kw : Val) (eff : NS → NS × Option PyErr) (ser : Val → Except PyErr (List Nat))
    (ns2 : NS) (e : PyErr)
    (hcall : eff (bindTemps working (applyPfx msg_id) f a kw) = (ns2, some e))
    (hpres : ∀ x ∈ tempNames (applyPfx msg_id), nsContains ns2 x = true)
    (htb : tracebackOf tbS ≠ []) :
    (apply_request k tbS ⟨true, true, some msg_id⟩ t working
        (Except.ok (f, a, kw)) eff ser).2 =
      [Event.iopubSend "error" (topicFor k "error"),
       Event.sendReply "shell" "apply_reply" (applyErrorReply k tbS e)
         (some (mdErr k t e.ename))]
    ∧ (applyErrorReply k tbS e).status = "error"
    ∧ (applyErrorReply k tbS e).ename = some e.ename
    ∧ (applyErrorReply k tbS e).evalue = some e.evalue
    ∧ (applyErrorReply k tbS e).traceback = some (tracebackOf tbS)
    ∧ tracebackOf tbS ≠ []
    ∧ (∀ (eff2 : NS → NS × Option PyErr) (ns2' : NS) (bufs : List Nat),
        eff2 (bindTemps working (applyPfx msg_id) f a kw) = (ns2', Option.none) →
        (∀ x ∈ tempNames (applyPfx msg_id), nsContains ns2' x = true) →
        ser ((nsLookup ns2' (applyPfx msg_id ++ "result")).getD Val.none)
          = Except.ok bufs →
        (apply_request k tbS ⟨true, true, some msg_id⟩ t working
            (Except.ok (f, a, kw)) eff2 ser).2 =
          [Event.sendReply "shell" "apply_reply" okReply (some (mdOk k t))]) := by
  refine ⟨?_, rfl, rfl, rfl, rfl, htb, ?_⟩
  · have hda := do_apply_err_eq k tbS working msg_id f a kw eff ser ns2 e hcall hpres
    simp [apply_request, hda, applyErrorOutcome, finish_metadata_applyErrorReply]
  · intro eff2 ns2' bufs hcall2 hpres2 hser2
    have hda := do_apply_ok_eq k tbS working msg_id f a kw eff2 ser ns2' bufs
      hcall2 hpres2 hser2
    simp [apply_request, hda, finish_metadata_okReply]

/-- C2 witness: a callable raising `ValueError("bad")` with a recorded
traceback, against an empty namespace. -/
theorem apply_request_error_reply_and_notification_witness :
    (apply_request ⟨"u", 0, 0⟩ (TbSource.lastTraceback (some ["tb"]))
        ⟨true, true, some "m-1"⟩ 0 []
        (Except.ok (Val.func 0, Val.str "a", Val.str "b"))
        (fun ns => (ns, some ⟨"ValueError", "bad"⟩)) (fun _ => Except.ok [])).2 =
      [Event.iopubSend "error"
         (topicFor ⟨"u", 0, 0⟩ "error"),
       Event.sendReply "shell" "apply_reply"
         (applyErrorReply ⟨"u", 0, 0⟩ (TbSource.lastTraceback (some ["tb"]))
           ⟨"ValueError", "bad"⟩)
         (some (mdErr ⟨"u", 0, 0⟩ 0 (PyErr.ename ⟨"ValueError", "bad"⟩)))]
    ∧ (applyErrorReply ⟨"u", 0, 0⟩ (TbSource.lastTraceback (some ["tb"]))
        ⟨"ValueError", "bad"⟩).status = "error"
    ∧ (applyErrorReply ⟨"u", 0, 0⟩ (TbSource.lastTraceback (some ["tb"]))
        ⟨"ValueError", "bad"⟩).ename = some (PyErr.ename ⟨"ValueError", "bad"⟩)
    ∧ (applyErrorReply ⟨"u", 0, 0⟩ (TbSource.lastTraceback (some ["tb"]))
        ⟨"ValueError", "bad"⟩).evalue = some (PyErr.evalue ⟨"ValueError", "bad"⟩)
    ∧ (applyErrorReply ⟨"u", 0, 0⟩ (TbSource.lastTraceback (some ["tb"]))
        ⟨"ValueError", "bad"⟩).traceback
        = some (tracebackOf (TbSource.lastTraceback (some ["tb"])))
    ∧ tracebackOf (TbSource.lastTraceback (some ["tb"])) ≠ []
    ∧ (∀ (eff2 : NS → NS × Option PyErr) (ns2' : NS) (bufs : List Nat),
        eff2 (bindTemps [] (applyPfx "m-1") (Val.func 0) (Val.str "a") (Val.str "b"))
          = (ns2', Option.none) →
        (∀ x ∈ tempNames (applyPfx "m-1"), nsContains ns2' x = true) →
        (fun _ => (Except.ok [] : Except PyErr (List Nat)))
            ((nsLookup ns2' (applyPfx "m-1" ++ "result")).getD Val.none)
          = Except.ok bufs →
        (apply_request ⟨"u", 0, 0⟩ (TbSource.lastTraceback (some ["tb"]))
            ⟨true, true, some "m-1"⟩ 0 []
            (Except.ok (Val.func 0, Val.str "a", Val.str "b")) eff2
            (fun _ => Except.ok [])).2 =
          [Event.sendReply "shell" "apply_reply" okReply
            (some (mdOk ⟨"u", 0, 0⟩ 0))]) :=
  apply_request_error_reply_and_notification ⟨"u", 0, 0⟩
    (TbSource.lastTraceback (some ["tb"])) [] "m-1" 0
    (Val.func 0) (Val.str "a") (Val.str "b")
    (fun ns => (ns, some ⟨"ValueError", "bad"⟩)) (fun _ => Except.ok [])
    (bindTemps [] (applyPfx "m-1") (Val.func 0) (Val.str "a") (Val.str "b"))
    ⟨"ValueError", "bad"⟩ rfl (by decide) (by decide)

/-- C4 counterexample: with a non-silent request, an error reply and
`stop_on_error` set, the handler does trigger the bulk abort, but strictly
after the `execute_reply` send event, not before it; and with a silent request
under the same error and configuration, no bulk abort happens at all. -/
theorem execute_stop_on_error_purge_counterexample :
    (Event.abortQueues ∈ execute_request ⟨"u", 0, 0⟩
        (some ⟨some "1/0", some false, Option.none, Option.none, some true⟩) 0 0
        ⟨"error", some "ZeroDivisionError", some "dbz", some ["tb"], Option.none⟩
     ∧ abortBeforeSendB (execute_request ⟨"u", 0, 0⟩
        (some ⟨some "1/0", some false, Option.none, Option.none, some true⟩) 0 0
        ⟨"error", some "ZeroDivisionError", some "dbz", some ["tb"], Option.none⟩)
        = false)
    ∧ Event.abortQueues ∉ execute_request ⟨"u", 0, 0⟩
        (some ⟨some "1/0", some true, Option.none, Option.none, some true⟩) 0 0
        ⟨"error", some "ZeroDivisionError", some "dbz", some ["tb"], Option.none⟩ := by
  decide

/-- C4 (amended): for every non-silent execute request whose reply has error
status and whose stop-on-error configuration is set, all currently queued work
is purged (bulk abort) immediately after — not before — the execute reply is
transmitted: the full event trace is input publication, reply send, then the
bulk abort; and a silent request never triggers the purge, whatever its
fields, reply status or time/count parameters. -/
theorem execute_error_stop_aborts_after_reply
    (k : Kernel) (c : ExecContent) (t n : Nat) (dr : Reply) (md : Metadata)
    (code : String)
    (hcode : c.code = some code) (hsil : c.silent = some false)
    (hstop : c.stop_on_error = some true) (herr : dr.status = "error")
    (hfin : finish_metadata k (init_metadata k t) dr = Except.ok md) :
    execute_request k (some c) t n dr =
      [Event.publishInput code (n + 1),
       Event.sendReply "shell" "execute_reply" dr (some md),
       Event.abortQueues]
    ∧ (∀ (c' : ExecContent) (t' n' : Nat) (dr' : Reply), c'.silent = some true →
        Event.abortQueues ∉ execute_request k (some c') t' n' dr') := by
  constructor
  · simp [execute_request, hcode, hsil, hstop, hfin, herr]
  · intro c' t' n' dr' hsil'
    cases hcode' : c'.code with
    | none => simp [execute_request, hcode']
    | some code' =>
      cases hfin' : finish_metadata k (init_metadata k t') dr' with
      | error e => simp [execute_request, hcode', hsil', hfin']
      | ok md' => simp [execute_request, hcode', hsil', hfin']

/-- C4 witness: a concrete non-silent error run with `stop_on_error` set. -/
theorem execute_error_stop_aborts_after_reply_witness :
    execute_request ⟨"u", 0, 0⟩
        (some ⟨some "1/0", some false, Option.none, Option.none, some true⟩) 0 0
        ⟨"error", some "ZeroDivisionError", some "dbz", some ["tb"], Option.none⟩ =
      [Event.publishInput "1/0" 1,
       Event.sendReply "shell" "execute_reply"
         ⟨"error", some "ZeroDivisionError", some "dbz", some ["tb"], Option.none⟩
         (some ⟨0, true, "u", some "error", some ⟨"u", 0, Option.none⟩⟩),
       Event.abortQueues]
    ∧ (∀ (c' : ExecContent) (t' n' : Nat) (dr' : Reply), c'.silent = some true →
        Event.abortQueues ∉ execute_request ⟨"u", 0, 0⟩ (some c') t' n' dr') :=
  execute_error_stop_aborts_after_reply ⟨"u", 0, 0⟩
    ⟨some "1/0", some false, Option.none, Option.none, some true⟩ 0 0
    ⟨"error", some "ZeroDivisionError", some "dbz", some ["tb"], Option.none⟩
    ⟨0, true, "u", some "error", some ⟨"u", 0, Option.none⟩⟩ "1/0"
    rfl rfl rfl rfl rfl

/-- C6 counterexample: the code strips only dash characters, not every
non-alphanumeric one (`"a.b"` keeps its dot), and the derived token is not
unique per request identifier (`"a-b"` and `"ab"` are distinct identifiers
with the same token). -/
theorem applyPfx_spec_counterexample :
    (applyPfx "a.b" ≠ specPfx "a.b")
    ∧ ("a-b" ≠ "ab" ∧ applyPfx "a-b" = applyPfx "ab") := by
  decide

/-- C6 (amended): the per-request temporary-name token is derived from the
request identifier by removing exactly the dash characters and wrapping the
remainder in underscores; two request identifiers receive the same token if
and only if they agree after dash removal, so the token is unique only among
identifiers that remain distinct once dashes are removed. -/
theorem applyPfx_characterization (a b : String) :
    applyPfx a = "_" ++ remDashes a ++ "_"
    ∧ (applyPfx a = applyPfx b ↔ remDashes a = remDashes b) := by
  refine ⟨rfl, ?_, ?_⟩
  · intro h
    have hd2 : ('_' :: (remDashes a).data) ++ ['_']
        = ('_' :: (remDashes b).data) ++ ['_'] := congrArg String.data h
    have hd3 := listCancelRight _ _ _ hd2
    have hd4 : (remDashes a).data = (remDashes b).data := by simpa using hd3
    exact stringDataInj _ _ hd4
  · intro h
    simp [applyPfx, h]

/-- C7: a request that finishes with status error carries the worker-info
record in both places — the apply error reply holds the identity token with
the numeric worker id (and `method='apply'`), and the finished metadata holds
the identity token with the numeric worker id — while for an ok-status reply
the finished metadata carries no worker-info record at all. -/
theorem engine_info_on_error_only
    (k : Kernel) (tbS : TbSource) (working : NS) (msg_id : String) (t : Nat)
    (f a kw : Val) (eff : NS → NS × Option PyErr) (ser : Val → Except PyErr (List Nat))
    (ns2 : NS) (e : PyErr)
    (hcall : eff (bindTemps working (applyPfx msg_id) f a kw) = (ns2, some e))
    (hpres : ∀ x ∈ tempNames (applyPfx msg_id), nsContains ns2 x = true) :
    (do_apply k tbS working msg_id (Except.ok (f, a, kw)) eff ser).reply.engine_info
      = some ⟨k.ident, k.int_id, some "apply"⟩
    ∧ finish_metadata k (init_metadata k t)
        (do_apply k tbS working msg_id (Except.ok (f, a, kw)) eff ser).reply
      = Except.ok (mdErr k t e.ename)
    ∧ (mdErr k t e.ename).engine_info = some ⟨k.ident, k.engine_id, Option.none⟩
    ∧ (∀ reply : Reply, reply.status = "ok" →
        finish_metadata k (init_metadata k t) reply = Except.ok (mdOk k t)
        ∧ (mdOk k t).engine_info = Option.none) := by
  have hda := do_apply_err_eq k tbS working msg_id f a kw eff ser ns2 e hcall hpres
  refine ⟨?_, ?_, rfl, ?_⟩
  · simp [hda, applyErrorOutcome, applyErrorReply]
  · rw [hda]
    simpa [applyErrorOutcome] using finish_metadata_applyErrorReply k t tbS e
  · intro reply h
    exact ⟨finish_metadata_ok_status k t reply h, rfl⟩

/-- C7 witness: a concrete raising run; worker-info records appear in the
reply and metadata on error, and an ok reply leaves the metadata without. -/
theorem engine_info_on_error_only_witness :
    (do_apply ⟨"u", 3, 7⟩ TbSource.missing [] "w-1"
        (Except.ok (Val.func 0, Val.str "a", Val.str "b"))
        (fun ns => (ns, some ⟨"RuntimeError", "boom"⟩))
        (fun _ => Except.ok [])).reply.engine_info
      = some ⟨"u", 7, some "apply"⟩
    ∧ finish_metadata ⟨"u", 3, 7⟩ (init_metadata ⟨"u", 3, 7⟩ 0)
        (do_apply ⟨"u", 3, 7⟩ TbSource.missing [] "w-1"
          (Except.ok (Val.func 0, Val.str "a", Val.str "b"))
          (fun ns => (ns, some ⟨"RuntimeError", "boom"⟩))
          (fun _ => Except.ok [])).reply
      = Except.ok (mdErr ⟨"u", 3, 7⟩ 0 (PyErr.ename ⟨"RuntimeError", "boom"⟩))
    ∧ (mdErr ⟨"u", 3, 7⟩ 0 (PyErr.ename ⟨"RuntimeError", "boom"⟩)).engine_info
      = some ⟨"u", 3, Option.none⟩
    ∧ (∀ reply : Reply, reply.status = "ok" →
        finish_metadata ⟨"u", 3, 7⟩ (init_metadata ⟨"u", 3, 7⟩ 0) reply
          = Except.ok (mdOk ⟨"u", 3, 7⟩ 0)
        ∧ (mdOk ⟨"u", 3, 7⟩ 0).engine_info = Option.none) :=
  engine_info_on_error_only ⟨"u", 3, 7⟩ TbSource.missing [] "w-1" 0
    (Val.func 0) (Val.str "a") (Val.str "b")
    (fun ns => (ns, some ⟨"RuntimeError", "boom"⟩)) (fun _ => Except.ok [])
    (bindTemps [] (applyPfx "w-1") (Val.func 0) (Val.str "a") (Val.str "b"))
    ⟨"RuntimeError", "boom"⟩ rfl (by decide)

/-- C8: an execute or apply request missing a required field is logged and
dropped: the handler returns with only a log event, sends no reply, and the
Shared Namespace is returned untouched, so neither the metadata lifecycle nor
execution is ever started. -/
theorem malformed_request_logged_and_dropped
    (k : Kernel) (tbS : TbSource) (t n : Nat) (working : NS)
    (unpack : Except PyErr (Val × Val × Val)) (eff : NS → NS × Option PyErr)
    (ser : Val → Except PyErr (List Nat)) (dr : Reply)
    (c : ExecContent) (msg : ApplyMsg)
    (hc : c.code = Option.none ∨ c.silent = Option.none)
    (hm : msg.has_content = false ∨ msg.has_buffers = false
          ∨ msg.msg_id = Option.none) :
    execute_request k Option.none t n dr = [Event.logError]
    ∧ execute_request k (some c) t n dr = [Event.logError]
    ∧ apply_request k tbS msg t working unpack eff ser = (working, [Event.logError]) := by
  refine ⟨rfl, ?_, ?_⟩
  · rcases hc with h | h
    · simp [execute_request, h]
    · cases hcode : c.code <;> simp [execute_request, h, hcode]
  · obtain ⟨hc1, hb1, mid⟩ := msg
    rcases hm with h | h | h
    · simp only at h
      subst h
      simp [apply_request]
    · simp only at h
      subst h
      cases hc1 <;> simp [apply_request]
    · simp only at h
      subst h
      cases hc1 <;> cases hb1 <;> simp [apply_request]

/-- C8 witness: a content-less execute request and an apply request with no
buffers are both dropped with a log entry only. -/
theorem malformed_request_logged_and_dropped_witness :
    execute_request ⟨"u", 0, 0⟩ Option.none 0 0 okReply = [Event.logError]
    ∧ execute_request ⟨"u", 0, 0⟩
        (some ⟨Option.none, some false, Option.none, Option.none, Option.none⟩)
        0 0 okReply = [Event.logError]
    ∧ apply_request ⟨"u", 0, 0⟩ TbSource.missing ⟨true, false, some "m-2"⟩ 0
        [("x", Val.num 1)] (Except.ok (Val.func 0, Val.str "a", Val.str "b"))
        (fun ns => (ns, Option.none)) (fun _ => Except.ok [])
      = ([("x", Val.num 1)], [Event.logError]) :=
  malformed_request_logged_and_dropped ⟨"u", 0, 0⟩ TbSource.missing 0 0
    [("x", Val.num 1)] (Except.ok (Val.func 0, Val.str "a", Val.str "b"))
    (fun ns => (ns, Option.none)) (fun _ => Except.ok []) okReply
    ⟨Option.none, some false, Option.none, Option.none, Option.none⟩
    ⟨true, false, some "m-2"⟩ (Or.inl rfl) (Or.inr (Or.inl rfl))

end IPyParallel
